import Mathlib

/-!
Shallow embedding of the ota-updater update engine.

The repository contains several near-duplicate updater implementations:
* `updater/github_updater.go` (manual HTTP client against the GitHub API),
  modelled in namespace `GithubUpdater`;
* `updater/updater.go` (custom update server with checksum verification),
  modelled in namespace `Updater`;
* a second `updater/updater.go` variant built on the go-github client,
  modelled in namespace `UpdaterGh`.

File-system effects (os.CreateTemp, os.Chmod, os.Rename, os.Remove, copyFile)
are modelled by explicit state passing over a partial map from paths to files.
Network and OS failures are modelled by an environment record that fixes, for
one update attempt, the HTTP response and which OS primitives succeed.
-/

set_option maxRecDepth 4096
set_option linter.unusedVariables false

/-- A file in the model file system: its byte content and whether the
executable permission bit is set (0755 vs 0666-style modes). -/
structure File where
  content : List Nat
  exec : Bool
  deriving DecidableEq

/-- The model file system: a partial map from paths to files. -/
abbrev FS : Type := String → Option File

/-- Create or overwrite the file at path `p` (os.Create / os.WriteFile / writes). -/
def FS.set (fs : FS) (p : String) (f : File) : FS :=
  fun q => if q = p then some f else fs q

/-- Remove the file at path `p` (os.Remove); removing a missing file is a no-op,
matching the ignored error of the deferred `os.Remove(tempPath)`. -/
def FS.del (fs : FS) (p : String) : FS :=
  fun q => if q = p then none else fs q

/-- os.Rename: move the file at `src` over `dst`, keeping content and mode. -/
def FS.rename (fs : FS) (src dst : String) : FS :=
  match fs src with
  | some f => FS.set (FS.del fs src) dst f
  | none => fs

/-- Lexicographic order on character lists; Go compares strings by bytes, and
for UTF-8 encoded strings byte order coincides with code-point order. -/
def listLt : List Char → List Char → Bool
  | [], [] => false
  | [], _ :: _ => true
  | _ :: _, [] => false
  | a :: as, b :: bs =>
    if a < b then true
    else if b < a then false
    else listLt as bs

/-- Go string comparison `a <= b`. -/
def goStrLe (a b : String) : Bool := !(listLt b.data a.data)

/-- strings.TrimPrefix(s, "v"): remove one leading "v" when present. -/
def trimPrefixV (s : String) : String :=
  match s.data with
  | 'v' :: rest => String.mk rest
  | _ => s

/-- Does the first list start with the second one? -/
def listStartsWith : List Char → List Char → Bool
  | _, [] => true
  | [], _ :: _ => false
  | a :: as, p :: ps => a == p && listStartsWith as ps

/-- Helper for strings.Contains: does some suffix of the haystack start with
the needle? -/
def strContainsAux (needle : List Char) : List Char → Bool
  | [] => needle.isEmpty
  | h :: t => listStartsWith (h :: t) needle || strContainsAux needle t

/-- strings.Contains(s, sub). -/
def strContains (s sub : String) : Bool := strContainsAux sub.data s.data

/-- strings.Split for a one-character separator. -/
def splitOnChar (c : Char) : List Char → List (List Char)
  | [] => [[]]
  | a :: as =>
    let r := splitOnChar c as
    if a = c then [] :: r
    else
      match r with
      | g :: gs => (a :: g) :: gs
      | [] => [[a]]

/-- strings.EqualFold on the ASCII fragment: case-insensitive character-wise
comparison (the checksums involved are plain hex strings). -/
def eqFoldList : List Char → List Char → Bool
  | [], [] => true
  | a :: as, b :: bs => (a.toLower == b.toLower) && eqFoldList as bs
  | _, _ => false

/-- strings.EqualFold on strings. -/
def eqFold (a b : String) : Bool := eqFoldList a.data b.data

namespace SHA256

/-- Truncate to a 32-bit word. -/
def w32 (n : Nat) : Nat := n % 4294967296

/-- Right rotation of a 32-bit word by `n` bits. -/
def rotr (n x : Nat) : Nat := x / 2 ^ n + x % 2 ^ n * 2 ^ (32 - n)

/-- Logical right shift of a 32-bit word. -/
def shr (n x : Nat) : Nat := x / 2 ^ n

def bigSigma0 (x : Nat) : Nat := rotr 2 x ^^^ rotr 13 x ^^^ rotr 22 x

def bigSigma1 (x : Nat) : Nat := rotr 6 x ^^^ rotr 11 x ^^^ rotr 25 x

def smallSigma0 (x : Nat) : Nat := rotr 7 x ^^^ rotr 18 x ^^^ shr 3 x

def smallSigma1 (x : Nat) : Nat := rotr 17 x ^^^ rotr 19 x ^^^ shr 10 x

def ch (x y z : Nat) : Nat := (x &&& y) ^^^ ((4294967295 ^^^ x) &&& z)

def maj (x y z : Nat) : Nat := (x &&& y) ^^^ (x &&& z) ^^^ (y &&& z)

/-- The SHA-256 round constants, written in decimal. -/
def K : List Nat :=
  [1116352408, 1899447441, 3049323471, 3921009573,
   961987163, 1508970993, 2453635748, 2870763221,
   3624381080, 310598401, 607225278, 1426881987,
   1925078388, 2162078206, 2614888103, 3248222580,
   3835390401, 4022224774, 264347078, 604807628,
   770255983, 1249150122, 1555081692, 1996064986,
   2554220882, 2821834349, 2952996808, 3210313671,
   3336571891, 3584528711, 113926993, 338241895,
   666307205, 773529912, 1294757372, 1396182291,
   1695183700, 1986661051, 2177026350, 2456956037,
   2730485921, 2820302411, 3259730800, 3345764771,
   3516065817, 3600352804, 4094571909, 275423344,
   430227734, 506948616, 659060556, 883997877,
   958139571, 1322822218, 1537002063, 1747873779,
   1955562222, 2024104815, 2227730452, 2361852424,
   2428436474, 2756734187, 3204031479, 3329325298]

/-- The eight 32-bit words of the hash state. -/
structure Hash where
  a : Nat
  b : Nat
  c : Nat
  d : Nat
  e : Nat
  f : Nat
  g : Nat
  h : Nat
  deriving DecidableEq

/-- Initial hash value, written in decimal. -/
def initHash : Hash :=
  ⟨1779033703, 3144134277, 1013904242, 2773480762,
   1359893119, 2600822924, 528734635, 1541459225⟩

/-- One compression round, consuming a (round constant, schedule word) pair. -/
def round (st : Hash) (kw : Nat × Nat) : Hash :=
  let t1 := w32 (st.h + bigSigma1 st.e + ch st.e st.f st.g + kw.1 + kw.2)
  let t2 := w32 (bigSigma0 st.a + maj st.a st.b st.c)
  ⟨w32 (t1 + t2), st.a, st.b, st.c, w32 (st.d + t1), st.e, st.f, st.g⟩

/-- Append one message-schedule word. -/
def extendStep (ws : List Nat) : List Nat :=
  let n := ws.length
  ws ++ [w32 (smallSigma1 (ws.getD (n - 2) 0) + ws.getD (n - 7) 0 +
    smallSigma0 (ws.getD (n - 15) 0) + ws.getD (n - 16) 0)]

/-- Iterate `extendStep`. -/
def extendN : Nat → List Nat → List Nat
  | 0, ws => ws
  | n + 1, ws => extendN n (extendStep ws)

/-- Expand a 16-word block to the 64-word message schedule. -/
def schedule (block : List Nat) : List Nat := extendN 48 block

/-- Compress one 16-word block into the hash state. -/
def compress (st : Hash) (block : List Nat) : Hash :=
  let fin := (K.zip (schedule block)).foldl round st
  ⟨w32 (st.a + fin.a), w32 (st.b + fin.b), w32 (st.c + fin.c), w32 (st.d + fin.d),
   w32 (st.e + fin.e), w32 (st.f + fin.f), w32 (st.g + fin.g), w32 (st.h + fin.h)⟩

/-- The 8-byte big-endian encoding of the message bit length. -/
def lenBytes (l : Nat) : List Nat :=
  [l * 8 / 2 ^ 56 % 256, l * 8 / 2 ^ 48 % 256, l * 8 / 2 ^ 40 % 256, l * 8 / 2 ^ 32 % 256,
   l * 8 / 2 ^ 24 % 256, l * 8 / 2 ^ 16 % 256, l * 8 / 2 ^ 8 % 256, l * 8 % 256]

/-- Merkle-Damgard padding: 0x80, zeros, then the 64-bit message bit length. -/
def padMsg (msg : List Nat) : List Nat :=
  let z := (64 - (msg.length + 9) % 64) % 64
  msg ++ [128] ++ List.replicate z 0 ++ lenBytes msg.length

/-- Group bytes into big-endian 32-bit words. -/
def toWords : List Nat → List Nat
  | b0 :: b1 :: b2 :: b3 :: rest => (((b0 * 256 + b1) * 256 + b2) * 256 + b3) :: toWords rest
  | _ => []

/-- Group words into 16-word blocks; structural recursion on a fuel bound by
the list length (each step consumes at least one element). -/
def toBlocksN : Nat → List Nat → List (List Nat)
  | 0, _ => []
  | _, [] => []
  | n + 1, w :: ws => ((w :: ws).take 16) :: toBlocksN n ((w :: ws).drop 16)

/-- Group words into 16-word blocks. -/
def toBlocks (ws : List Nat) : List (List Nat) := toBlocksN ws.length ws

/-- Big-endian bytes of one 32-bit word. -/
def wordBytes (w : Nat) : List Nat := [w / 2 ^ 24 % 256, w / 2 ^ 16 % 256, w / 2 ^ 8 % 256, w % 256]

/-- The 32 digest bytes of a final hash state. -/
def digestBytes (st : Hash) : List Nat :=
  wordBytes st.a ++ wordBytes st.b ++ wordBytes st.c ++ wordBytes st.d ++
  wordBytes st.e ++ wordBytes st.f ++ wordBytes st.g ++ wordBytes st.h

/-- crypto/sha256: the SHA-256 digest of a byte sequence. -/
def sum (msg : List Nat) : List Nat :=
  digestBytes ((toBlocks (toWords (padMsg msg))).foldl compress initHash)

end SHA256

/-- One lowercase hexadecimal digit. -/
def hexDigit (n : Nat) : Char := if n < 10 then Char.ofNat (48 + n) else Char.ofNat (87 + n)

/-- Two lowercase hexadecimal digits of one byte. -/
def byteHex (b : Nat) : List Char := [hexDigit (b / 16), hexDigit (b % 16)]

/-- encoding/hex.EncodeToString. -/
def hexEncode (bs : List Nat) : String := String.mk (bs.foldr (fun b acc => byteHex b ++ acc) [])

/-- The lowercase hex SHA-256 digest of a byte sequence, as computed by
`hex.EncodeToString(hash.Sum(nil))`. -/
def sha256hex (msg : List Nat) : String := hexEncode (SHA256.sum msg)

/-- FIPS test vector: the digest of the empty message. -/
theorem sha256hex_empty_vector :
    sha256hex [] = "e3b0c44298fc1c149afbf4c8996fb92427ae41e4649b934ca495991b7852b855" := by
  decide

/-- FIPS test vector: the digest of "abc". -/
theorem sha256hex_abc_vector :
    sha256hex [97, 98, 99] =
      "ba7816bf8f01cfea414140de5dae2223b00361a396177a9cb410ff61f20015ad" := by
  decide

/-- A GitHub release asset (name and browser_download_url). -/
structure GithubReleaseAsset where
  name : String
  browserDownloadURL : String
  deriving DecidableEq

/-- A GitHub release (tag_name, prerelease flag, assets). -/
structure GithubRelease where
  tagName : String
  prerelease : Bool
  assets : List GithubReleaseAsset
  deriving DecidableEq

/-- The error outcomes an update attempt can report; each constructor stands
for one of the wrapped error messages of the source. -/
inductive UpdErr where
  | fetchFailed
  | badRepoFormat
  | noAssetFound
  | downloadFailed
  | downloadStatus (code : Nat)
  | tempCreateFailed
  | writeFailed
  | checksumMismatch
  | chmodFailed
  | backupFailed
  | replaceFailed
  | scriptWriteFailed
  | scriptStartFailed
  | checkFailed
  | serverStatus (code : Nat)
  | decodeFailed
  deriving DecidableEq

/-- The environment of one download-and-apply attempt: the HTTP response for
the artifact download, the fresh temp path chosen by os.CreateTemp, which OS
primitives succeed, and the platform identifiers of the running process.
Field order: connOk, status, body, createTempOk, tempPath, writeOk, chmodOk,
copyOk, renameOk, rollbackOk, goos, tmpDir, args, scriptWriteOk, scriptStartOk. -/
structure DlEnv where
  connOk : Bool
  status : Nat
  body : List Nat
  createTempOk : Bool
  tempPath : String
  writeOk : Bool
  chmodOk : Bool
  copyOk : Bool
  renameOk : Bool
  rollbackOk : Bool
  goos : String
  tmpDir : String
  args : String
  scriptWriteOk : Bool
  scriptStartOk : Bool

/-- The text of the deferred replacement batch script. -/
def batchContent (newFile targetFile args : String) : String :=
  "@echo off\n:retry\nping -n 2 127.0.0.1 > nul\ndel \"" ++ targetFile ++
  "\"\nif exist \"" ++ targetFile ++ "\" goto retry\ncopy /y \"" ++ newFile ++
  "\" \"" ++ targetFile ++ "\"\nstart \"\" \"" ++ targetFile ++ "\" " ++ args ++
  "\ndel \"" ++ newFile ++ "\"\ndel \"%~f0\"\n"

/-- The bytes of a string. -/
def strBytes (s : String) : List Nat := s.data.map Char.toNat

/-- replaceExecutableWindows: write the batch script (mode 0700, executable)
into the temp directory and launch it detached; identical in all three
source copies. Returns the updated file system and the error of the step that
failed, if any. -/
def replaceExecutableWindows (fs : FS) (env : DlEnv) (newFile targetFile : String) :
    FS × Option UpdErr :=
  if !env.scriptWriteOk then (fs, some .scriptWriteFailed)
  else
    let batchPath := env.tmpDir ++ "/update.bat"
    let fs1 := FS.set fs batchPath (File.mk (strBytes (batchContent newFile targetFile env.args)) true)
    if !env.scriptStartOk then (fs1, some .scriptStartFailed)
    else (fs1, none)

/-- The asset-selection loop shared by the GitHub-based CheckAndUpdate
variants: scan the assets in source order and keep the browser_download_url
of the first one whose name contains the match key; the zero value "" stands
for the unassigned downloadURL variable. -/
def findAssetURL : List GithubReleaseAsset → String → String
  | [], _ => ""
  | a :: rest, assetName =>
    if strContains a.name assetName then a.browserDownloadURL
    else findAssetURL rest assetName

namespace GithubUpdater

/-- updater.Config of updater/github_updater.go. -/
structure Config where
  currentVersion : String
  githubRepo : String
  githubToken : String
  checkPrerelease : Bool
  executablePath : String

/-- The version gate of CheckAndUpdate: the source returns "no update" when
`latestVersion <= currentVersion` after strings.TrimPrefix(_, "v") was applied
to both sides; an update is pursued exactly when this comparison fails. -/
def isNewer (tagName currentVersion : String) : Bool :=
  !(goStrLe (trimPrefixV tagName) (trimPrefixV currentVersion))

/-- downloadAndApplyUpdate of updater/github_updater.go. The hash computed
while downloading is discarded by the source, so it does not appear here.
Error returns mirror the source; the deferred os.Remove(tempPath) runs on
every exit path. -/
def downloadAndApplyUpdate (fs : FS) (env : DlEnv) (executablePath downloadURL token : String) :
    FS × Bool × Option UpdErr :=
  if !env.connOk then (fs, false, some .downloadFailed)
  else if env.status ≠ 200 then (fs, false, some (.downloadStatus env.status))
  else if !env.createTempOk then (fs, false, some .tempCreateFailed)
  else
    let tempPath := env.tempPath
    let fs1 := FS.set fs tempPath (File.mk [] false)
    if !env.writeOk then (FS.del fs1 tempPath, false, some .writeFailed)
    else
      let fs2 := FS.set fs1 tempPath (File.mk env.body false)
      if !env.chmodOk then (FS.del fs2 tempPath, false, some .chmodFailed)
      else
        let fs3 := FS.set fs2 tempPath (File.mk env.body true)
        let backupPath := executablePath ++ ".bak"
        match fs3 executablePath, env.copyOk with
        | some cur, true =>
          let fs4 := FS.set fs3 backupPath (File.mk cur.content false)
          if env.goos = "windows" then
            let r := replaceExecutableWindows fs4 env tempPath executablePath
            (FS.del r.1 tempPath, true, r.2)
          else if !env.renameOk then
            let fs5 := if env.rollbackOk then FS.rename fs4 backupPath executablePath else fs4
            (FS.del fs5 tempPath, false, some .replaceFailed)
          else
            (FS.del (FS.rename fs4 tempPath executablePath) tempPath, true, none)
        | _, _ => (FS.del fs3 tempPath, false, some .backupFailed)

/-- CheckAndUpdate of updater/github_updater.go. The network fetch of
getLatestRelease is summarized by its outcome: `fetchErr` for a transport or
non-200 error, and `release` for the decoded result (`none` models the nil
release of an empty prerelease list). -/
def CheckAndUpdate (fs : FS) (env : DlEnv) (fetchErr : Bool) (release : Option GithubRelease)
    (config : Config) (platform arch : String) : FS × Bool × Option UpdErr :=
  if fetchErr then (fs, false, some .fetchFailed)
  else
    match release with
    | none => (fs, false, none)
    | some release =>
      if isNewer release.tagName config.currentVersion then
        let assetName := platform ++ "-" ++ arch
        let downloadURL := findAssetURL release.assets assetName
        if downloadURL = "" then (fs, false, some .noAssetFound)
        else downloadAndApplyUpdate fs env config.executablePath downloadURL config.githubToken
      else (fs, false, none)

end GithubUpdater

namespace Updater

/-- updater.Config of the custom-server updater/updater.go. -/
structure Config where
  currentVersion : String
  updateURL : String
  executablePath : String

/-- VersionInfo returned by the custom update server. -/
structure VersionInfo where
  version : String
  releaseDate : String
  downloadURL : String
  checksum : String
  deriving DecidableEq

/-- verifyChecksum: hash the file written to the temp path and compare the
lowercase hex digest with the expected checksum via strings.EqualFold; the
source reads the file back from disk, the model receives the same bytes. -/
def verifyChecksum (content : List Nat) (expectedChecksum : String) : Bool :=
  eqFold (sha256hex content) expectedChecksum

/-- downloadAndApplyUpdate of the custom-server updater/updater.go, including
the relative-URL handling and the checksum verification between the temp-file
write and the chmod. -/
def downloadAndApplyUpdate (fs : FS) (env : DlEnv) (executablePath : String)
    (versionInfo : VersionInfo) (baseURL : String) : FS × Bool × Option UpdErr :=
  let _downloadURL :=
    if versionInfo.downloadURL.startsWith "http" then versionInfo.downloadURL
    else baseURL ++ versionInfo.downloadURL
  if !env.connOk then (fs, false, some .downloadFailed)
  else if env.status ≠ 200 then (fs, false, some (.downloadStatus env.status))
  else if !env.createTempOk then (fs, false, some .tempCreateFailed)
  else
    let tempPath := env.tempPath
    let fs1 := FS.set fs tempPath (File.mk [] false)
    if !env.writeOk then (FS.del fs1 tempPath, false, some .writeFailed)
    else
      let fs2 := FS.set fs1 tempPath (File.mk env.body false)
      if !(verifyChecksum env.body versionInfo.checksum) then
        (FS.del fs2 tempPath, false, some .checksumMismatch)
      else if !env.chmodOk then (FS.del fs2 tempPath, false, some .chmodFailed)
      else
        let fs3 := FS.set fs2 tempPath (File.mk env.body true)
        let backupPath := executablePath ++ ".bak"
        match fs3 executablePath, env.copyOk with
        | some cur, true =>
          let fs4 := FS.set fs3 backupPath (File.mk cur.content false)
          if env.goos = "windows" then
            let r := replaceExecutableWindows fs4 env tempPath executablePath
            (FS.del r.1 tempPath, true, r.2)
          else if !env.renameOk then
            let fs5 := if env.rollbackOk then FS.rename fs4 backupPath executablePath else fs4
            (FS.del fs5 tempPath, false, some .replaceFailed)
          else
            (FS.del (FS.rename fs4 tempPath executablePath) tempPath, true, none)
        | _, _ => (FS.del fs3 tempPath, false, some .backupFailed)

/-- The environment of one custom-server check: the HTTP response of the
`check/<platform>/<arch>/<version>` request (`body` is the decoded
VersionInfo, `none` for a JSON decode failure) and the download environment
used if an update proceeds. -/
structure SrvEnv where
  connOk : Bool
  status : Nat
  body : Option VersionInfo
  dl : DlEnv

/-- CheckAndUpdate of the custom-server updater/updater.go: 404 means no
update and no error, any other non-200 status is an error, and a decoded
response proceeds to downloadAndApplyUpdate. -/
def CheckAndUpdate (fs : FS) (env : SrvEnv) (config : Config) (platform arch : String) :
    FS × Bool × Option UpdErr :=
  if !env.connOk then (fs, false, some .checkFailed)
  else if env.status = 404 then (fs, false, none)
  else if env.status ≠ 200 then (fs, false, some (.serverStatus env.status))
  else
    match env.body with
    | none => (fs, false, some .decodeFailed)
    | some versionInfo =>
      downloadAndApplyUpdate fs env.dl config.executablePath versionInfo config.updateURL

end Updater

namespace UpdaterGh

/-- updater.Config of the go-github-based updater/updater.go. -/
structure Config where
  currentVersion : String
  githubRepo : String
  githubToken : String
  executablePath : String

/-- The version gate of this CheckAndUpdate variant: the source strips the
"v" prefix from the release tag only and leaves currentVersion untouched
before the `latestVersion <= currentVersion` comparison. -/
def isNewer (tagName currentVersion : String) : Bool :=
  !(goStrLe (trimPrefixV tagName) currentVersion)

/-- downloadAndApplyUpdate of the go-github-based updater/updater.go; no
checksum verification exists on this path. -/
def downloadAndApplyUpdate (fs : FS) (env : DlEnv) (token executablePath downloadURL : String) :
    FS × Bool × Option UpdErr :=
  if !env.connOk then (fs, false, some .downloadFailed)
  else if env.status ≠ 200 then (fs, false, some (.downloadStatus env.status))
  else if !env.createTempOk then (fs, false, some .tempCreateFailed)
  else
    let tempPath := env.tempPath
    let fs1 := FS.set fs tempPath (File.mk [] false)
    if !env.writeOk then (FS.del fs1 tempPath, false, some .writeFailed)
    else
      let fs2 := FS.set fs1 tempPath (File.mk env.body false)
      if !env.chmodOk then (FS.del fs2 tempPath, false, some .chmodFailed)
      else
        let fs3 := FS.set fs2 tempPath (File.mk env.body true)
        let backupPath := executablePath ++ ".bak"
        match fs3 executablePath, env.copyOk with
        | some cur, true =>
          let fs4 := FS.set fs3 backupPath (File.mk cur.content false)
          if env.goos = "windows" then
            let r := replaceExecutableWindows fs4 env tempPath executablePath
            (FS.del r.1 tempPath, true, r.2)
          else if !env.renameOk then
            let fs5 := if env.rollbackOk then FS.rename fs4 backupPath executablePath else fs4
            (FS.del fs5 tempPath, false, some .replaceFailed)
          else
            (FS.del (FS.rename fs4 tempPath executablePath) tempPath, true, none)
        | _, _ => (FS.del fs3 tempPath, false, some .backupFailed)

/-- CheckAndUpdate of the go-github-based updater/updater.go, including the
owner/repo format check; the GetLatestRelease call is summarized by `fetchErr`
and the decoded `release`. -/
def CheckAndUpdate (fs : FS) (env : DlEnv) (fetchErr : Bool) (release : GithubRelease)
    (config : Config) (platform arch : String) : FS × Bool × Option UpdErr :=
  if (splitOnChar '/' config.githubRepo.data).length ≠ 2 then (fs, false, some .badRepoFormat)
  else if fetchErr then (fs, false, some .fetchFailed)
  else if isNewer release.tagName config.currentVersion then
    let assetName := platform ++ "-" ++ arch
    let downloadURL := findAssetURL release.assets assetName
    if downloadURL = "" then (fs, false, some .noAssetFound)
    else downloadAndApplyUpdate fs env config.githubToken config.executablePath downloadURL
  else (fs, false, none)

end UpdaterGh

/-! ### Helper lemmas -/

theorem FS.set_self (fs : FS) (p : String) (f : File) : FS.set fs p f p = some f := by
  simp [FS.set]

theorem FS.set_other (fs : FS) (p q : String) (f : File) (h : q ≠ p) :
    FS.set fs p f q = fs q := by
  simp [FS.set, h]

theorem FS.del_self (fs : FS) (p : String) : FS.del fs p p = none := by
  simp [FS.del]

theorem FS.del_other (fs : FS) (p q : String) (h : q ≠ p) : FS.del fs p q = fs q := by
  simp [FS.del, h]

theorem listLt_self (l : List Char) : listLt l l = false := by
  induction l with
  | nil => rfl
  | cons a t ih => simp [listLt, ih]

theorem goStrLe_self (s : String) : goStrLe s s = true := by
  simp [goStrLe, listLt_self]

theorem hexEncode_data_length (bs : List Nat) : (hexEncode bs).data.length = 2 * bs.length := by
  induction bs with
  | nil => rfl
  | cons b t ih =>
    show (byteHex b ++ (hexEncode t).data).length = 2 * (b :: t).length
    simp only [List.length_append, ih, byteHex, List.length_cons]
    simp
    omega

theorem SHA256.digestBytes_length (st : SHA256.Hash) : (SHA256.digestBytes st).length = 32 := by
  simp [SHA256.digestBytes, SHA256.wordBytes]

theorem sha256hex_data_length (msg : List Nat) : (sha256hex msg).data.length = 64 := by
  show (hexEncode (SHA256.sum msg)).data.length = 64
  rw [hexEncode_data_length]
  show 2 * (SHA256.digestBytes _).length = 64
  rw [SHA256.digestBytes_length]

/-- With an empty expected checksum, verification always fails: the computed
digest is a 64-character hex string and can never fold-equal "". -/
theorem Updater.verifyChecksum_empty (content : List Nat) :
    Updater.verifyChecksum content "" = false := by
  have h := sha256hex_data_length content
  unfold Updater.verifyChecksum eqFold
  cases hd : (sha256hex content).data with
  | nil => rw [hd] at h; simp at h
  | cons c cs => rfl

theorem findAssetURL_eq_find (assets : List GithubReleaseAsset) (key : String) :
    findAssetURL assets key =
      (((assets.find? fun a => strContains a.name key).map
        fun a => a.browserDownloadURL).getD "") := by
  induction assets with
  | nil => rfl
  | cons a t ih =>
    cases h : strContains a.name key with
    | true => simp [findAssetURL, List.find?, h]
    | false => simp [findAssetURL, List.find?, h, ih]

/-! ### Fixtures -/

/-- An initial file system with a single executable file at /app/bin. -/
def fs0 : FS := fun p => if p = "/app/bin" then some (File.mk [10, 20] true) else none

/-- A Unix download environment in which every operation succeeds. -/
def envOk : DlEnv :=
  ⟨true, 200, [1, 2, 3], true, "/tmp/update_1.bin", true, true, true, true, true,
   "linux", "/tmp", "", true, true⟩

/-- Like `envOk` but the rename of the temp file over the executable fails;
the rollback rename succeeds. -/
def envRenameFail : DlEnv :=
  ⟨true, 200, [1, 2, 3], true, "/tmp/update_1.bin", true, true, true, false, true,
   "linux", "/tmp", "", true, true⟩

/-- Like `envRenameFail` but the rollback rename fails as well. -/
def envRollbackFail : DlEnv :=
  ⟨true, 200, [1, 2, 3], true, "/tmp/update_1.bin", true, true, true, false, false,
   "linux", "/tmp", "", true, true⟩

/-- A Windows environment in which writing the deferred batch script fails. -/
def envWinFail : DlEnv :=
  ⟨true, 200, [1, 2, 3], true, "/tmp/update_1.bin", true, true, true, true, true,
   "windows", "/tmp", "", false, true⟩

/-- Modelled from the spec: the comparator contract
`isNewer(candidate, current) = stripV(candidate) > stripV(current)` under
lexicographic string ordering, stripping one optional leading "v" from both
sides. -/
def isNewerSpec (candidate current : String) : Bool :=
  listLt (trimPrefixV current).data (trimPrefixV candidate).data

/-- Release tag "2.0" with one matching asset. -/
def rel20 : GithubRelease := ⟨"2.0", false, [⟨"app-linux-amd64", "http://x/1"⟩]⟩

/-- Current version "v1.0" for the go-github variant. -/
def cfgV10 : UpdaterGh.Config := ⟨"v1.0", "o/r", "", "/app/bin"⟩

/-- Claim C2, counterexample: the CheckAndUpdate variant at lines 893-903
strips the "v" prefix only from the release tag, so for candidate "2.0"
against current "v1.0" it decides "not newer" and takes the no-update branch,
while stripV("2.0") > stripV("v1.0") holds under lexicographic ordering. -/
theorem C2_counterexample :
    isNewerSpec "2.0" "v1.0" = true ∧
    UpdaterGh.isNewer "2.0" "v1.0" = false ∧
    (UpdaterGh.CheckAndUpdate fs0 envOk false rel20 cfgV10 "linux" "amd64").2.1 = false ∧
    (UpdaterGh.CheckAndUpdate fs0 envOk false rel20 cfgV10 "linux" "amd64").2.2 = none := by
  decide

/-- Claim C2, amended: the github_updater gate (which strips "v" from both
sides) equals stripV(a) > stripV(b) under lexicographic string ordering for
all pairs, and isNewer("9.0","10.0") = true there; the go-github variant at
lines 893-903 instead equals stripV(a) > b, with currentVersion left
unnormalized (it also reports "9.0" newer than "10.0"). -/
theorem C2_amended :
    (∀ a b : String, GithubUpdater.isNewer a b = isNewerSpec a b) ∧
    (∀ a b : String, UpdaterGh.isNewer a b = listLt b.data (trimPrefixV a).data) ∧
    GithubUpdater.isNewer "9.0" "10.0" = true ∧
    UpdaterGh.isNewer "9.0" "10.0" = true := by
  refine ⟨fun a b => ?_, fun a b => ?_, by decide, by decide⟩
  · simp [GithubUpdater.isNewer, isNewerSpec, goStrLe]
  · simp [UpdaterGh.isNewer, goStrLe]

/-- Release tag "vw" with no assets. -/
def relVW : GithubRelease := ⟨"vw", false, []⟩

/-- Current version "vw" for the go-github variant. -/
def cfgVW : UpdaterGh.Config := ⟨"vw", "o/r", "", "/app/bin"⟩

/-- Claim C3, counterexample: for the CheckAndUpdate variant at lines 893-903,
comparing the version string "vw" against itself reports "newer" (the stripped
tag "w" exceeds the unstripped current "vw"), and CheckAndUpdate passes the
gate instead of taking the no-update branch. -/
theorem C3_counterexample :
    UpdaterGh.isNewer "vw" "vw" = true ∧
    (UpdaterGh.CheckAndUpdate fs0 envOk false relVW cfgVW "linux" "amd64").2.2 =
      some UpdErr.noAssetFound := by
  decide

/-- Claim C3, amended: the github_updater gate reports "not newer" whenever
the two sides agree after stripping the optional "v" (so in particular for
equal strings and for a one-sided "v" prefix); the go-github variant does so
only when additionally the stripped tag does not exceed the raw currentVersion,
which covers the cited "v1.0" vs "1.0" examples but not every self-comparison. -/
theorem C3_amended :
    (∀ a b : String, trimPrefixV a = trimPrefixV b → GithubUpdater.isNewer a b = false) ∧
    (∀ a b : String, goStrLe (trimPrefixV a) b = true → UpdaterGh.isNewer a b = false) ∧
    GithubUpdater.isNewer "v1.0" "1.0" = false ∧
    GithubUpdater.isNewer "1.0" "v1.0" = false ∧
    UpdaterGh.isNewer "v1.0" "1.0" = false ∧
    UpdaterGh.isNewer "1.0" "v1.0" = false := by
  refine ⟨fun a b h => ?_, fun a b h => ?_, by decide, by decide, by decide, by decide⟩
  · simp [GithubUpdater.isNewer, h, goStrLe_self]
  · simp [UpdaterGh.isNewer, h]

/-- Witness for C3_amended at concrete inputs. -/
theorem C3_witness :
    GithubUpdater.isNewer "v1.0" "1.0" = false ∧ UpdaterGh.isNewer "1.0" "v1.0" = false :=
  ⟨C3_amended.1 "v1.0" "1.0" (by decide), C3_amended.2.1 "1.0" "v1.0" (by decide)⟩

/-- Release tag "vw1" with no assets. -/
def relVW1 : GithubRelease := ⟨"vw1", false, []⟩

/-- Current version "vw1" for the go-github variant. -/
def cfgVW1 : UpdaterGh.Config := ⟨"vw1", "o/r", "", "/app/bin"⟩

/-- Claim C9, counterexample: with currentVersion literally equal to the
latest release tag ("vw1"), the CheckAndUpdate variant at lines 893-903 does
not return "no update with no error": it passes the version gate (stripped tag
"w1" exceeds unstripped current "vw1") and reports a no-suitable-asset error. -/
theorem C9_counterexample :
    (UpdaterGh.CheckAndUpdate fs0 envOk false relVW1 cfgVW1 "linux" "amd64").2.2 =
      some UpdErr.noAssetFound := by
  decide

/-- Claim C9, amended: when the current version equals the latest tag after
"v"-normalization, the github_updater CheckAndUpdate returns (false, no error)
with the file system untouched; the go-github variant does the same provided
additionally the stripped tag does not exceed the raw currentVersion (which
holds whenever currentVersion carries no anomalous "v" prefix). -/
theorem C9_amended :
    (∀ (fs : FS) (env : DlEnv) (rel : GithubRelease) (cfg : GithubUpdater.Config)
      (platform arch : String),
      trimPrefixV rel.tagName = trimPrefixV cfg.currentVersion →
      GithubUpdater.CheckAndUpdate fs env false (some rel) cfg platform arch =
        (fs, false, none)) ∧
    (∀ (fs : FS) (env : DlEnv) (rel : GithubRelease) (cfg : UpdaterGh.Config)
      (platform arch : String),
      (splitOnChar '/' cfg.githubRepo.data).length = 2 →
      goStrLe (trimPrefixV rel.tagName) cfg.currentVersion = true →
      UpdaterGh.CheckAndUpdate fs env false rel cfg platform arch = (fs, false, none)) := by
  constructor
  · intro fs env rel cfg platform arch h
    have hg : GithubUpdater.isNewer rel.tagName cfg.currentVersion = false := by
      simp [GithubUpdater.isNewer, h, goStrLe_self]
    simp [GithubUpdater.CheckAndUpdate, hg]
  · intro fs env rel cfg platform arch hrepo hle
    have hg : UpdaterGh.isNewer rel.tagName cfg.currentVersion = false := by
      simp [UpdaterGh.isNewer, hle]
    simp [UpdaterGh.CheckAndUpdate, hrepo, hg]

/-- Release tag "v1.2.0" with no assets. -/
def relSame : GithubRelease := ⟨"v1.2.0", false, []⟩

/-- Current version "1.2.0" for the github_updater variant. -/
def cfgSame1 : GithubUpdater.Config := ⟨"1.2.0", "o/r", "", true, "/app/bin"⟩

/-- Current version "1.2.0" for the go-github variant. -/
def cfgSame2 : UpdaterGh.Config := ⟨"1.2.0", "o/r", "", "/app/bin"⟩

/-- Witness for C9_amended at concrete inputs. -/
theorem C9_witness :
    GithubUpdater.CheckAndUpdate fs0 envOk false (some relSame) cfgSame1 "linux" "amd64" =
      (fs0, false, none) ∧
    UpdaterGh.CheckAndUpdate fs0 envOk false relSame cfgSame2 "linux" "amd64" =
      (fs0, false, none) :=
  ⟨C9_amended.1 fs0 envOk relSame cfgSame1 "linux" "amd64" (by decide),
   C9_amended.2 fs0 envOk relSame cfgSame2 "linux" "amd64" (by decide) (by decide)⟩

/-- Claim C1 (code bug): on a non-locking platform, when the rename of the
verified temp file over /app/bin fails and the rollback rename succeeds, the
engine reports failure and restores the original bytes, but the restored file
has lost its executable permission: the backup was produced by copyFile via
os.Create (mode 0666-class) and is renamed over the executable unchanged, so
the attempt ends with executablePath non-executable, violating the lifecycle
invariant. -/
theorem C1_rollback_leaves_nonexecutable :
    fs0 "/app/bin" = some (File.mk [10, 20] true) ∧
    (UpdaterGh.downloadAndApplyUpdate fs0 envRenameFail "" "/app/bin" "http://x/1").2.1 = false ∧
    (UpdaterGh.downloadAndApplyUpdate fs0 envRenameFail "" "/app/bin" "http://x/1").2.2 =
      some UpdErr.replaceFailed ∧
    (UpdaterGh.downloadAndApplyUpdate fs0 envRenameFail "" "/app/bin" "http://x/1").1 "/app/bin" =
      some (File.mk [10, 20] false) := by
  decide

/-- Claim C7, counterexample: when the rollback rename fails too, the attempt
reports exactly the same applied flag and exactly the same error as when the
rollback succeeds -- the rollback rename's result is discarded by the source,
so the double failure is silently swallowed rather than escalated. -/
theorem C7_counterexample :
    (UpdaterGh.downloadAndApplyUpdate fs0 envRollbackFail "" "/app/bin" "http://x/1").2.1 =
      (UpdaterGh.downloadAndApplyUpdate fs0 envRenameFail "" "/app/bin" "http://x/1").2.1 ∧
    (UpdaterGh.downloadAndApplyUpdate fs0 envRollbackFail "" "/app/bin" "http://x/1").2.2 =
      (UpdaterGh.downloadAndApplyUpdate fs0 envRenameFail "" "/app/bin" "http://x/1").2.2 ∧
    (UpdaterGh.downloadAndApplyUpdate fs0 envRollbackFail "" "/app/bin" "http://x/1").2.2 =
      some UpdErr.replaceFailed := by
  decide

/-- Claim C7, amended: on a non-locking platform a replace failure after a
successful backup makes the attempt report failure (never success) with the
replace error, and when the rollback rename succeeds the original bytes are
restored at executablePath (with the executable bit lost, see C1); a failure
of the rollback rename itself is ignored -- the reported outcome is the same
replace error for either rollback result, with no escalation. -/
theorem C7_amended :
    ∀ (fs : FS) (env : DlEnv) (token exe url : String) (f : File),
      env.connOk = true → env.status = 200 → env.createTempOk = true → env.writeOk = true →
      env.chmodOk = true → env.copyOk = true → fs exe = some f →
      env.goos ≠ "windows" → env.renameOk = false → env.tempPath ≠ exe →
      (UpdaterGh.downloadAndApplyUpdate fs env token exe url).2.1 = false ∧
      (UpdaterGh.downloadAndApplyUpdate fs env token exe url).2.2 = some UpdErr.replaceFailed ∧
      (env.rollbackOk = true →
        (UpdaterGh.downloadAndApplyUpdate fs env token exe url).1 exe =
          some (File.mk f.content false)) := by
  intro fs env token exe url f h1 h2 h3 h4 h5 h6 hexe hgoos h7 htmp
  have hne : exe ≠ env.tempPath := Ne.symm htmp
  refine ⟨?_, ?_, ?_⟩
  · simp [UpdaterGh.downloadAndApplyUpdate, h1, h2, h3, h4, h5, h6, h7, hgoos,
      FS.set, hne, hexe]
  · simp [UpdaterGh.downloadAndApplyUpdate, h1, h2, h3, h4, h5, h6, h7, hgoos,
      FS.set, hne, hexe]
  · intro hrb
    simp [UpdaterGh.downloadAndApplyUpdate, h1, h2, h3, h4, h5, h6, h7, hgoos, hrb,
      FS.rename, FS.set, FS.del, hne, hexe]

/-- Witness for C7_amended at a concrete input. -/
theorem C7_witness :
    (UpdaterGh.downloadAndApplyUpdate fs0 envRenameFail "" "/app/bin" "http://x/1").2.1 = false ∧
    (UpdaterGh.downloadAndApplyUpdate fs0 envRenameFail "" "/app/bin" "http://x/1").2.2 =
      some UpdErr.replaceFailed ∧
    (envRenameFail.rollbackOk = true →
      (UpdaterGh.downloadAndApplyUpdate fs0 envRenameFail "" "/app/bin" "http://x/1").1 "/app/bin" =
        some (File.mk [10, 20] false)) :=
  C7_amended fs0 envRenameFail "" "/app/bin" "http://x/1" (File.mk [10, 20] true)
    rfl rfl rfl rfl rfl rfl (by decide) (by decide) rfl (by decide)

/-- Claim C10: on the locking-platform path (goos = "windows"), once the
backup has been created the attempt returns applied = true unconditionally:
with no error when the batch script is written and launched, and still true
together with the script error when writing or launching the deferred script
fails, so applied = true does not guarantee the deferred swap was scheduled. -/
theorem C10_windows_applied_true :
    ∀ (fs : FS) (env : DlEnv) (token exe url : String) (f : File),
      env.connOk = true → env.status = 200 → env.createTempOk = true → env.writeOk = true →
      env.chmodOk = true → env.copyOk = true → fs exe = some f →
      env.goos = "windows" → env.tempPath ≠ exe →
      (UpdaterGh.downloadAndApplyUpdate fs env token exe url).2.1 = true ∧
      (env.scriptWriteOk = false →
        (UpdaterGh.downloadAndApplyUpdate fs env token exe url).2.2 =
          some UpdErr.scriptWriteFailed) ∧
      (env.scriptWriteOk = true → env.scriptStartOk = false →
        (UpdaterGh.downloadAndApplyUpdate fs env token exe url).2.2 =
          some UpdErr.scriptStartFailed) ∧
      (env.scriptWriteOk = true → env.scriptStartOk = true →
        (UpdaterGh.downloadAndApplyUpdate fs env token exe url).2.2 = none) := by
  intro fs env token exe url f h1 h2 h3 h4 h5 h6 hexe hgoos htmp
  have hne : exe ≠ env.tempPath := Ne.symm htmp
  refine ⟨?_, ?_, ?_, ?_⟩
  · cases hw : env.scriptWriteOk with
    | false =>
      simp [UpdaterGh.downloadAndApplyUpdate, replaceExecutableWindows,
        h1, h2, h3, h4, h5, h6, hgoos, hw, FS.set, hne, hexe]
    | true =>
      cases hs : env.scriptStartOk with
      | false =>
        simp [UpdaterGh.downloadAndApplyUpdate, replaceExecutableWindows,
          h1, h2, h3, h4, h5, h6, hgoos, hw, hs, FS.set, hne, hexe]
      | true =>
        simp [UpdaterGh.downloadAndApplyUpdate, replaceExecutableWindows,
          h1, h2, h3, h4, h5, h6, hgoos, hw, hs, FS.set, hne, hexe]
  · intro hw
    simp [UpdaterGh.downloadAndApplyUpdate, replaceExecutableWindows,
      h1, h2, h3, h4, h5, h6, hgoos, hw, FS.set, hne, hexe]
  · intro hw hs
    simp [UpdaterGh.downloadAndApplyUpdate, replaceExecutableWindows,
      h1, h2, h3, h4, h5, h6, hgoos, hw, hs, FS.set, hne, hexe]
  · intro hw hs
    simp [UpdaterGh.downloadAndApplyUpdate, replaceExecutableWindows,
      h1, h2, h3, h4, h5, h6, hgoos, hw, hs, FS.set, hne, hexe]

/-- Witness for C10_windows_applied_true at a concrete input where writing
the deferred script fails. -/
theorem C10_witness :
    (UpdaterGh.downloadAndApplyUpdate fs0 envWinFail "" "/app/bin" "http://x/1").2.1 = true ∧
    (UpdaterGh.downloadAndApplyUpdate fs0 envWinFail "" "/app/bin" "http://x/1").2.2 =
      some UpdErr.scriptWriteFailed :=
  ⟨(C10_windows_applied_true fs0 envWinFail "" "/app/bin" "http://x/1" (File.mk [10, 20] true)
      rfl rfl rfl rfl rfl rfl (by decide) rfl (by decide)).1,
   (C10_windows_applied_true fs0 envWinFail "" "/app/bin" "http://x/1" (File.mk [10, 20] true)
      rfl rfl rfl rfl rfl rfl (by decide) rfl (by decide)).2.1 rfl⟩

/-- The two assets named in the spec scenario. -/
def assetsPair : List GithubReleaseAsset :=
  [⟨"app-linux-amd64", "http://x/1"⟩, ⟨"app-darwin-arm64", "http://x/2"⟩]

/-- Release "1.0" carrying the two spec assets. -/
def relPair : GithubRelease := ⟨"1.0", false, assetsPair⟩

/-- Current version "0.9", so the version gate passes. -/
def cfg09 : GithubUpdater.Config := ⟨"0.9", "o/r", "", true, "/app/bin"⟩

/-- A release whose only asset matches by name but has an empty download URL. -/
def relEmptyURL : GithubRelease := ⟨"1.0", false, [⟨"app-linux-amd64", ""⟩]⟩

/-- Claim C4, counterexample: an asset whose name contains the match key but
whose browser_download_url is the empty string is treated as "no suitable
asset": the loop assigns the empty URL and the engine then fails with the
no-suitable-asset error even though a matching asset exists, so resolution
does not return the first matching asset's URL in this case. -/
theorem C4_counterexample :
    strContains "app-linux-amd64" "linux-amd64" = true ∧
    GithubUpdater.isNewer "1.0" "0.9" = true ∧
    (GithubUpdater.CheckAndUpdate fs0 envOk false (some relEmptyURL) cfg09 "linux"
      "amd64").2.2 = some UpdErr.noAssetFound := by
  decide

/-- Claim C4, amended: the selection loop keeps the URL of the first asset in
source order whose name contains "<platform>-<arch>" (the zero value "" when
none matches); when that URL is empty -- no name matches, or the first match
carries an empty URL -- CheckAndUpdate fails with the no-suitable-asset error
and no download is attempted (the file system is returned unchanged), and
otherwise it proceeds to download exactly that URL. The two spec examples
behave as stated. -/
theorem C4_amended :
    (∀ (assets : List GithubReleaseAsset) (key : String),
      findAssetURL assets key =
        (((assets.find? fun a => strContains a.name key).map
          fun a => a.browserDownloadURL).getD "")) ∧
    (∀ (fs : FS) (env : DlEnv) (rel : GithubRelease) (cfg : GithubUpdater.Config)
      (platform arch : String),
      GithubUpdater.isNewer rel.tagName cfg.currentVersion = true →
      findAssetURL rel.assets (platform ++ "-" ++ arch) = "" →
      GithubUpdater.CheckAndUpdate fs env false (some rel) cfg platform arch =
        (fs, false, some UpdErr.noAssetFound)) ∧
    (∀ (fs : FS) (env : DlEnv) (rel : GithubRelease) (cfg : GithubUpdater.Config)
      (platform arch : String),
      GithubUpdater.isNewer rel.tagName cfg.currentVersion = true →
      findAssetURL rel.assets (platform ++ "-" ++ arch) ≠ "" →
      GithubUpdater.CheckAndUpdate fs env false (some rel) cfg platform arch =
        GithubUpdater.downloadAndApplyUpdate fs env cfg.executablePath
          (findAssetURL rel.assets (platform ++ "-" ++ arch)) cfg.githubToken) ∧
    findAssetURL assetsPair "linux-amd64" = "http://x/1" ∧
    findAssetURL assetsPair "linux-arm" = "" := by
  refine ⟨findAssetURL_eq_find, ?_, ?_, by decide, by decide⟩
  · intro fs env rel cfg platform arch hg hurl
    simp [GithubUpdater.CheckAndUpdate, hg, hurl]
  · intro fs env rel cfg platform arch hg hurl
    simp [GithubUpdater.CheckAndUpdate, hg, hurl]

/-- Witness for C4_amended at a concrete input with no matching asset. -/
theorem C4_witness :
    GithubUpdater.CheckAndUpdate fs0 envOk false (some relPair) cfg09 "linux" "arm" =
      (fs0, false, some UpdErr.noAssetFound) :=
  C4_amended.2.1 fs0 envOk relPair cfg09 "linux" "arm" (by decide) (by decide)

/-- A VersionInfo whose checksum field is absent (empty). -/
def vinfoNoSum : Updater.VersionInfo := ⟨"1.1", "2026-01-01", "/download/linux/amd64", ""⟩

/-- Claim C5, counterexample: with an empty expected checksum the custom-server
attempt does not skip verification and install; it fails with the checksum
mismatch error (the hex digest of the body is 64 characters and never
fold-equals ""), leaving the executable untouched. -/
theorem C5_counterexample :
    (Updater.downloadAndApplyUpdate fs0 envOk "/app/bin" vinfoNoSum "http://srv").2.1 = false ∧
    (Updater.downloadAndApplyUpdate fs0 envOk "/app/bin" vinfoNoSum "http://srv").2.2 =
      some UpdErr.checksumMismatch ∧
    (Updater.downloadAndApplyUpdate fs0 envOk "/app/bin" vinfoNoSum "http://srv").1 "/app/bin" =
      some (File.mk [10, 20] true) := by
  decide

/-- Claim C5, amended: when the server supplies no expected checksum (empty
field), verification is not skipped: it always fails, because the computed
digest is a 64-character hex string that can never fold-equal the empty
string, so the downloaded artifact never proceeds to installation and the
attempt reports the checksum mismatch with the executable unchanged. -/
theorem C5_amended :
    (∀ content : List Nat, Updater.verifyChecksum content "" = false) ∧
    (∀ (fs : FS) (env : DlEnv) (exe : String) (vinfo : Updater.VersionInfo) (base : String),
      env.connOk = true → env.status = 200 → env.createTempOk = true → env.writeOk = true →
      vinfo.checksum = "" → env.tempPath ≠ exe →
      (Updater.downloadAndApplyUpdate fs env exe vinfo base).2.1 = false ∧
      (Updater.downloadAndApplyUpdate fs env exe vinfo base).2.2 =
        some UpdErr.checksumMismatch ∧
      (Updater.downloadAndApplyUpdate fs env exe vinfo base).1 exe = fs exe) := by
  refine ⟨Updater.verifyChecksum_empty, ?_⟩
  intro fs env exe vinfo base h1 h2 h3 h4 hck htmp
  have hne : exe ≠ env.tempPath := Ne.symm htmp
  have hv : Updater.verifyChecksum env.body vinfo.checksum = false := by
    rw [hck]; exact Updater.verifyChecksum_empty env.body
  refine ⟨?_, ?_, ?_⟩
  · simp [Updater.downloadAndApplyUpdate, h1, h2, h3, h4, hv]
  · simp [Updater.downloadAndApplyUpdate, h1, h2, h3, h4, hv]
  · simp [Updater.downloadAndApplyUpdate, h1, h2, h3, h4, hv, FS.del, FS.set, hne]

/-- Witness for C5_amended at a concrete input. -/
theorem C5_witness :
    Updater.verifyChecksum [5] "" = false ∧
    ((Updater.downloadAndApplyUpdate fs0 envOk "/app/bin" vinfoNoSum "http://srv").2.1 = false ∧
     (Updater.downloadAndApplyUpdate fs0 envOk "/app/bin" vinfoNoSum "http://srv").2.2 =
       some UpdErr.checksumMismatch ∧
     (Updater.downloadAndApplyUpdate fs0 envOk "/app/bin" vinfoNoSum "http://srv").1 "/app/bin" =
       fs0 "/app/bin") :=
  ⟨C5_amended.1 [5],
   C5_amended.2 fs0 envOk "/app/bin" vinfoNoSum "http://srv" rfl rfl rfl rfl rfl (by decide)⟩

/-- Claim C6: in the custom-server path, when an expected checksum is supplied
and the SHA-256 digest of the downloaded bytes does not fold-equal it, the
attempt fails with the checksum mismatch error, the temp file is removed, no
replacement is attempted, and the file at executablePath is byte-identical to
its pre-attempt state. -/
theorem C6_checksum_mismatch :
    ∀ (fs : FS) (env : DlEnv) (exe : String) (vinfo : Updater.VersionInfo) (base : String),
      env.connOk = true → env.status = 200 → env.createTempOk = true → env.writeOk = true →
      vinfo.checksum ≠ "" →
      Updater.verifyChecksum env.body vinfo.checksum = false →
      env.tempPath ≠ exe →
      (Updater.downloadAndApplyUpdate fs env exe vinfo base).2.1 = false ∧
      (Updater.downloadAndApplyUpdate fs env exe vinfo base).2.2 =
        some UpdErr.checksumMismatch ∧
      (Updater.downloadAndApplyUpdate fs env exe vinfo base).1 exe = fs exe ∧
      (Updater.downloadAndApplyUpdate fs env exe vinfo base).1 env.tempPath = none := by
  intro fs env exe vinfo base h1 h2 h3 h4 hck hv htmp
  have hne : exe ≠ env.tempPath := Ne.symm htmp
  refine ⟨?_, ?_, ?_, ?_⟩
  · simp [Updater.downloadAndApplyUpdate, h1, h2, h3, h4, hv]
  · simp [Updater.downloadAndApplyUpdate, h1, h2, h3, h4, hv]
  · simp [Updater.downloadAndApplyUpdate, h1, h2, h3, h4, hv, FS.del, FS.set, hne]
  · simp [Updater.downloadAndApplyUpdate, h1, h2, h3, h4, hv, FS.del]

/-- A VersionInfo with a wrong expected checksum. -/
def vinfoBad : Updater.VersionInfo := ⟨"1.1", "2026-01-01", "/download/linux/amd64", "00"⟩

/-- Witness for C6_checksum_mismatch at a concrete input. -/
theorem C6_witness :
    (Updater.downloadAndApplyUpdate fs0 envOk "/app/bin" vinfoBad "http://srv").2.1 = false ∧
    (Updater.downloadAndApplyUpdate fs0 envOk "/app/bin" vinfoBad "http://srv").2.2 =
      some UpdErr.checksumMismatch ∧
    (Updater.downloadAndApplyUpdate fs0 envOk "/app/bin" vinfoBad "http://srv").1 "/app/bin" =
      fs0 "/app/bin" ∧
    (Updater.downloadAndApplyUpdate fs0 envOk "/app/bin" vinfoBad "http://srv").1
      envOk.tempPath = none :=
  C6_checksum_mismatch fs0 envOk "/app/bin" vinfoBad "http://srv"
    rfl rfl rfl rfl (by decide) (by decide) (by decide)

/-- Claim C8: in the custom-server variant, a 404 from the check endpoint
yields "no update available" with no error, any other non-200 status yields
the fetch error carrying that status, and in both cases the file system is
returned unchanged. -/
theorem C8_not_found_vs_error :
    ∀ (fs : FS) (env : Updater.SrvEnv) (cfg : Updater.Config) (platform arch : String),
      env.connOk = true →
      (env.status = 404 →
        Updater.CheckAndUpdate fs env cfg platform arch = (fs, false, none)) ∧
      (env.status ≠ 404 → env.status ≠ 200 →
        Updater.CheckAndUpdate fs env cfg platform arch =
          (fs, false, some (UpdErr.serverStatus env.status))) := by
  intro fs env cfg platform arch h1
  constructor
  · intro h404
    simp [Updater.CheckAndUpdate, h1, h404]
  · intro h404 h200
    simp [Updater.CheckAndUpdate, h1, h404, h200]

/-- The check response environments for the witness: a 404 and a 500. -/
def srv404 : Updater.SrvEnv := ⟨true, 404, none, envOk⟩

def srv500 : Updater.SrvEnv := ⟨true, 500, none, envOk⟩

/-- The custom-server configuration for the witness. -/
def cfgSrv : Updater.Config := ⟨"1.0.0", "http://srv", "/app/bin"⟩

/-- Witness for C8_not_found_vs_error at concrete inputs. -/
theorem C8_witness :
    Updater.CheckAndUpdate fs0 srv404 cfgSrv "linux" "amd64" = (fs0, false, none) ∧
    Updater.CheckAndUpdate fs0 srv500 cfgSrv "linux" "amd64" =
      (fs0, false, some (UpdErr.serverStatus 500)) :=
  ⟨(C8_not_found_vs_error fs0 srv404 cfgSrv "linux" "amd64" rfl).1 rfl,
   (C8_not_found_vs_error fs0 srv500 cfgSrv "linux" "amd64" rfl).2 (by decide) (by decide)⟩
